import Mathlib

/-!
Verification development for the gaia experiment-execution and evaluation
pipeline (`src/gaia/eval/eval.py`, `src/gaia/eval/batch_experiment.py`).
Python floats are modelled as rationals (exact real-valued semantics of the
arithmetic the code performs); human-readable formatted strings (the
`reasoning` field, log lines) are not modelled.
-/

namespace Gaia

/-! ### PassFailDecisionEngine: `RagEvaluator.determine_pass_fail` -/

/-- The `claude_analysis` dict.  Each entry is one criterion key together with
the optional `"rating"` field of its sub-dict, so looking up a criterion and
applying `getD ""` models `claude_analysis[criterion].get("rating", "")`. -/
abbrev ClaudeAnalysis := List (String × Option String)

/-- Python truthiness of the optional dict: `if not claude_analysis:` is taken
when the argument is `None` or the empty dict. -/
def analysisTruthy : Option ClaudeAnalysis → Bool
  | none => false
  | some l => !l.isEmpty

/-- The four recognised Q&A criteria, in the order the code iterates them. -/
def qaCriteria : List String :=
  ["correctness", "completeness", "conciseness", "relevance"]

/-- `str.lower()` (ASCII case folding, which covers every rating string the
code compares against). -/
def lowerStr (s : String) : String := ⟨s.data.map Char.toLower⟩

/-- `ratings[criterion]`: present iff the criterion is a key of the dict; the
value is `claude_analysis[criterion].get("rating", "").lower()`. -/
def ratingOf (analysis : ClaudeAnalysis) (criterion : String) : Option String :=
  (analysis.lookup criterion).map (fun r => lowerStr (r.getD ""))

/-- `score_map.get(rating, 1)` with excellent=4, good=3, fair=2, poor=1; any
unrecognised rating falls back to the default 1. -/
def scoreMap (rating : String) : ℚ :=
  if rating = "excellent" then 4
  else if rating = "good" then 3
  else if rating = "fair" then 2
  else if rating = "poor" then 1
  else 1

/-- The `weights` dict: correctness 0.4, completeness 0.3, conciseness 0.15,
relevance 0.15, in iteration order. -/
def weights : List (String × ℚ) :=
  [("correctness", 2/5), ("completeness", 3/10),
   ("conciseness", 3/20), ("relevance", 3/20)]

/-- `total_score`: sum of `score * weight` over the criteria present. -/
def totalScore (analysis : ClaudeAnalysis) : ℚ :=
  (weights.filterMap (fun cw => (ratingOf analysis cw.1).map
    (fun r => scoreMap r * cw.2))).sum

/-- `max_possible`: sum of `4 * weight` over the criteria present. -/
def maxPossible (analysis : ClaudeAnalysis) : ℚ :=
  (weights.filterMap (fun cw => (ratingOf analysis cw.1).map
    (fun _ => 4 * cw.2))).sum

/-- `normalized_score = total_score / max_possible if max_possible > 0 else 0`. -/
def normalizedScore (analysis : ClaudeAnalysis) : ℚ :=
  if maxPossible analysis > 0 then totalScore analysis / maxPossible analysis
  else 0

/-- `ratings.get("correctness", "poor") in ["fair", "good", "excellent"]`. -/
def correctnessAcceptable (analysis : ClaudeAnalysis) : Bool :=
  (["fair", "good", "excellent"] : List String).contains
    ((ratingOf analysis "correctness").getD "poor")

/-- `qualitative_pass = normalized_score >= 0.6 and correctness_acceptable`. -/
def qualitativePass (analysis : ClaudeAnalysis) : Bool :=
  decide (normalizedScore analysis ≥ 3/5) && correctnessAcceptable analysis

/-- The verdict dict returned by `determine_pass_fail`.  The
`qualitative_normalized` field models `scores["qualitative_normalized"]`,
absent in the similarity-only branch. -/
structure Verdict where
  is_pass : Bool
  pass_fail : String
  criteria : String
  qualitative_normalized : Option ℚ := none
deriving Repr, DecidableEq

/-- `RagEvaluator.determine_pass_fail` (eval.py lines 42-137). -/
def determine_pass_fail (similarity threshold : ℚ)
    (claude_analysis : Option ClaudeAnalysis) : Verdict :=
  let similarity_pass := decide (similarity ≥ threshold)
  if !analysisTruthy claude_analysis then
    { is_pass := similarity_pass
      pass_fail := if similarity_pass then "pass" else "fail"
      criteria := "similarity_only" }
  else
    let analysis := claude_analysis.getD []
    let combined_pass := similarity_pass || qualitativePass analysis
    let final_pass :=
      if (ratingOf analysis "correctness").getD "" = "poor" then false
      else combined_pass
    { is_pass := final_pass
      pass_fail := if final_pass then "pass" else "fail"
      criteria := "comprehensive"
      qualitative_normalized := some (normalizedScore analysis) }

/-- C2: with a rubric whose correctness rating is "poor", `determine_pass_fail`
returns `is_pass = false` for every similarity value and threshold: the
correctness veto overrides even a similarity at or above the threshold. -/
theorem correctness_poor_forces_fail (sim thr : ℚ) (l : ClaudeAnalysis)
    (r : Option String) (hl : l.lookup "correctness" = some r)
    (hr : lowerStr (r.getD "") = "poor") :
    (determine_pass_fail sim thr (some l)).is_pass = false := by
  have hne : l.isEmpty = false := by
    cases l with
    | nil => simp [List.lookup] at hl
    | cons a t => rfl
  have hrat : ratingOf l "correctness" = some "poor" := by
    simp [ratingOf, hl, hr]
  simp [determine_pass_fail, analysisTruthy, hne, hrat]

/-- Witness for C2: `decide(similarity=0.9, threshold=0.7, correctness="poor")`
fails. -/
theorem correctness_poor_forces_fail_witness :
    (determine_pass_fail (9/10) (7/10)
      (some [("correctness", some "poor")])).is_pass = false :=
  correctness_poor_forces_fail (9/10) (7/10) _ (some "poor") rfl (by decide)

/-- A rubric rating all four Q&A criteria "good". -/
def allGoodAnalysis : ClaudeAnalysis :=
  [("correctness", some "good"), ("completeness", some "good"),
   ("conciseness", some "good"), ("relevance", some "good")]

/-- C3: with all four criteria rated "good", the normalized qualitative score
is exactly 0.75, so with similarity 0.5 and threshold 0.7 (similarity below
threshold) the verdict passes via the qualitative path. -/
theorem all_good_passes_qualitatively :
    normalizedScore allGoodAnalysis = 3/4 ∧
    qualitativePass allGoodAnalysis = true ∧
    ¬ ((1 : ℚ)/2 ≥ 7/10) ∧
    (determine_pass_fail (1/2) (7/10) (some allGoodAnalysis)).is_pass = true ∧
    (determine_pass_fail (1/2) (7/10) (some allGoodAnalysis)).criteria
      = "comprehensive" := by
  have h1 : ratingOf allGoodAnalysis "correctness" = some "good" := rfl
  have h2 : ratingOf allGoodAnalysis "completeness" = some "good" := rfl
  have h3 : ratingOf allGoodAnalysis "conciseness" = some "good" := rfl
  have h4 : ratingOf allGoodAnalysis "relevance" = some "good" := rfl
  have hts : totalScore allGoodAnalysis = 3 := by
    simp [totalScore, weights, h1, h2, h3, h4, scoreMap]
    norm_num
  have hmp : maxPossible allGoodAnalysis = 4 := by
    simp [maxPossible, weights, h1, h2, h3, h4]
    norm_num
  have hns : normalizedScore allGoodAnalysis = 3/4 := by
    rw [normalizedScore, hts, hmp]
    norm_num
  have hca : correctnessAcceptable allGoodAnalysis = true := by
    simp [correctnessAcceptable, h1]
  have hqp : qualitativePass allGoodAnalysis = true := by
    rw [qualitativePass, hns, hca]
    norm_num
  have hne : analysisTruthy (some allGoodAnalysis) = true := rfl
  refine ⟨hns, hqp, by norm_num, ?_, ?_⟩ <;>
    simp [determine_pass_fail, hne, h1, hqp]

/-- C4: with no rubric (`claude_analysis` is `None` or the empty dict), the
verdict passes iff similarity meets the threshold and `criteria` is
`"similarity_only"`. -/
theorem no_rubric_similarity_only (sim thr : ℚ) (ca : Option ClaudeAnalysis)
    (h : analysisTruthy ca = false) :
    (determine_pass_fail sim thr ca).is_pass = decide (sim ≥ thr) ∧
    (determine_pass_fail sim thr ca).criteria = "similarity_only" := by
  simp [determine_pass_fail, h]

/-- Witness for C4 at similarity 1, threshold 0, no analysis. -/
theorem no_rubric_similarity_only_witness :
    (determine_pass_fail 1 0 none).is_pass = decide ((1 : ℚ) ≥ 0) ∧
    (determine_pass_fail 1 0 none).criteria = "similarity_only" :=
  no_rubric_similarity_only 1 0 none rfl

/-- C8: for a non-empty rubric containing none of the four recognised
criteria, the normalized score is the guarded 0, the qualitative pass is
false, and a well-formed comprehensive verdict is still returned whose
outcome is the similarity comparison alone. -/
theorem no_recognized_criteria_still_total (sim thr : ℚ) (l : ClaudeAnalysis)
    (hne : l ≠ []) (h : ∀ c ∈ qaCriteria, l.lookup c = none) :
    normalizedScore l = 0 ∧ qualitativePass l = false ∧
    (determine_pass_fail sim thr (some l)).is_pass = decide (sim ≥ thr) ∧
    (determine_pass_fail sim thr (some l)).criteria = "comprehensive" ∧
    (determine_pass_fail sim thr (some l)).qualitative_normalized = some 0 := by
  have h1 : l.lookup "correctness" = none := h _ (by simp [qaCriteria])
  have h2 : l.lookup "completeness" = none := h _ (by simp [qaCriteria])
  have h3 : l.lookup "conciseness" = none := h _ (by simp [qaCriteria])
  have h4 : l.lookup "relevance" = none := h _ (by simp [qaCriteria])
  have hmp : maxPossible l = 0 := by
    simp [maxPossible, weights, ratingOf, h1, h2, h3, h4]
  have hns : normalizedScore l = 0 := by simp [normalizedScore, hmp]
  have hca : correctnessAcceptable l = false := by
    simp [correctnessAcceptable, ratingOf, h1]
  have hqp : qualitativePass l = false := by
    simp [qualitativePass, hca]
  have hemp : l.isEmpty = false := by
    cases l with
    | nil => exact absurd rfl hne
    | cons a t => rfl
  refine ⟨hns, hqp, ?_, ?_, ?_⟩ <;>
    simp [determine_pass_fail, analysisTruthy, hemp, hqp, ratingOf, h1, hns]

/-- Witness for C8: a one-entry rubric with an unrecognised key. -/
theorem no_recognized_criteria_still_total_witness :
    normalizedScore [("clarity", some "good")] = 0 ∧
    qualitativePass [("clarity", some "good")] = false ∧
    (determine_pass_fail (9/10) (1/10)
      (some [("clarity", some "good")])).is_pass = decide ((9 : ℚ)/10 ≥ 1/10) ∧
    (determine_pass_fail (9/10) (1/10)
      (some [("clarity", some "good")])).criteria = "comprehensive" ∧
    (determine_pass_fail (9/10) (1/10)
      (some [("clarity", some "good")])).qualitative_normalized = some 0 :=
  no_recognized_criteria_still_total (9/10) (1/10) [("clarity", some "good")]
    (by decide) (by decide)

/-- C10: a correctness rating outside the four recognised values is scored 1
(like "poor") and blocks the qualitative pass path, but it does not trigger
the forced-fail veto, so the verdict is exactly the similarity comparison. -/
theorem unrecognized_correctness_rating (sim thr : ℚ) (l : ClaudeAnalysis)
    (r : Option String) (hl : l.lookup "correctness" = some r)
    (hr : lowerStr (r.getD "") ∉
      (["excellent", "good", "fair", "poor"] : List String)) :
    scoreMap (lowerStr (r.getD "")) = 1 ∧
    correctnessAcceptable l = false ∧
    qualitativePass l = false ∧
    (determine_pass_fail sim thr (some l)).is_pass = decide (sim ≥ thr) := by
  simp only [List.mem_cons, List.not_mem_nil, or_false, not_or] at hr
  obtain ⟨hre, hrg, hrf, hrp⟩ := hr
  have hne : l.isEmpty = false := by
    cases l with
    | nil => simp [List.lookup] at hl
    | cons a t => rfl
  have hrat : ratingOf l "correctness" = some (lowerStr (r.getD "")) := by
    simp [ratingOf, hl]
  have hsm : scoreMap (lowerStr (r.getD "")) = 1 := by
    simp [scoreMap, hre, hrg, hrf, hrp]
  have hca : correctnessAcceptable l = false := by
    simp [correctnessAcceptable, hrat, hrg, hrf, hre]
  have hqp : qualitativePass l = false := by
    simp [qualitativePass, hca]
  refine ⟨hsm, hca, hqp, ?_⟩
  simp [determine_pass_fail, analysisTruthy, hne, hrat, hqp, hrp]

/-- Witness for C10: rating "terrible", similarity 0.9 ≥ threshold 0.7. -/
theorem unrecognized_correctness_rating_witness :
    scoreMap (lowerStr (some "terrible" |>.getD "")) = 1 ∧
    correctnessAcceptable [("correctness", some "terrible")] = false ∧
    qualitativePass [("correctness", some "terrible")] = false ∧
    (determine_pass_fail (9/10) (7/10)
      (some [("correctness", some "terrible")])).is_pass
      = decide ((9 : ℚ)/10 ≥ 7/10) :=
  unrecognized_correctness_rating (9/10) (7/10)
    [("correctness", some "terrible")] (some "terrible") rfl (by decide)

/-! ### TextSimilarityScorer: `RagEvaluator.calculate_similarity`

The guard and the exception fallback are from eval.py lines 19-40.  The
vectorization itself is performed by the external sklearn library
(`TfidfVectorizer(stop_words="english", lowercase=True)` followed by
`cosine_similarity`), an external collaborator of the repository; it is
modelled from the spec (§4.3): a tf-idf vector space over exactly the two
input texts, lower-cased, English stop-words removed, with sklearn's default
token pattern and smoothed idf, and the cosine of the two vectors.  Float
arithmetic is modelled over the reals. -/

/-- `str.strip()`: the text with leading and trailing whitespace removed
(ASCII whitespace, which covers the cases the claims exercise). -/
def stripStr (s : String) : String :=
  ⟨(((s.data.dropWhile Char.isWhitespace).reverse.dropWhile
      Char.isWhitespace).reverse)⟩

/-- Word characters of sklearn's default token pattern `\w`. -/
def isWordChar (c : Char) : Bool := c.isAlphanum || c = '_'

/-- Maximal runs of word characters in a character list (the `\b\w\w+\b`
token pattern extracts such runs; the length-two minimum is filtered later). -/
def wordRuns : List Char → List Char → List (List Char)
  | [], acc => if acc.isEmpty then [] else [acc.reverse]
  | c :: cs, acc =>
    if isWordChar c then wordRuns cs (c :: acc)
    else if acc.isEmpty then wordRuns cs []
    else acc.reverse :: wordRuns cs []

/-- sklearn's built-in English stop-word list (external collaborator data;
the theorems below do not depend on its exact contents). -/
def englishStopWords : List String :=
  ["a", "about", "above", "across", "after", "afterwards", "again", "against",
   "all", "almost", "alone", "along", "already", "also", "although", "always",
   "am", "among", "amongst", "amoungst", "amount", "an", "and", "another",
   "any", "anyhow", "anyone", "anything", "anyway", "anywhere", "are",
   "around", "as", "at", "back", "be", "became", "because", "become",
   "becomes", "becoming", "been", "before", "beforehand", "behind", "being",
   "below", "beside", "besides", "between", "beyond", "bill", "both",
   "bottom", "but", "by", "call", "can", "cannot", "cant", "co", "con",
   "could", "couldnt", "cry", "de", "describe", "detail", "do", "done",
   "down", "due", "during", "each", "eg", "eight", "either", "eleven",
   "else", "elsewhere", "empty", "enough", "etc", "even", "ever", "every",
   "everyone", "everything", "everywhere", "except", "few", "fifteen",
   "fifty", "fill", "find", "fire", "first", "five", "for", "former",
   "formerly", "forty", "found", "four", "from", "front", "full", "further",
   "get", "give", "go", "had", "has", "hasnt", "have", "he", "hence", "her",
   "here", "hereafter", "hereby", "herein", "hereupon", "hers", "herself",
   "him", "himself", "his", "how", "however", "hundred", "i", "ie", "if",
   "in", "inc", "indeed", "interest", "into", "is", "it", "its", "itself",
   "keep", "last", "latter", "latterly", "least", "less", "ltd", "made",
   "many", "may", "me", "meanwhile", "might", "mill", "mine", "more",
   "moreover", "most", "mostly", "move", "much", "must", "my", "myself",
   "name", "namely", "neither", "never", "nevertheless", "next", "nine",
   "no", "nobody", "none", "noone", "nor", "not", "nothing", "now",
   "nowhere", "of", "off", "often", "on", "once", "one", "only", "onto",
   "or", "other", "others", "otherwise", "our", "ours", "ourselves", "out",
   "over", "own", "part", "per", "perhaps", "please", "put", "rather", "re",
   "same", "see", "seem", "seemed", "seeming", "seems", "serious", "several",
   "she", "should", "show", "side", "since", "sincere", "six", "sixty",
   "so", "some", "somehow", "someone", "something", "sometime", "sometimes",
   "somewhere", "still", "such", "system", "take", "ten", "than", "that",
   "the", "their", "them", "themselves", "then", "thence", "there",
   "thereafter", "thereby", "therefore", "therein", "thereupon", "these",
   "they", "thick", "thin", "third", "this", "those", "though", "three",
   "through", "throughout", "thru", "thus", "to", "together", "too", "top",
   "toward", "towards", "twelve", "twenty", "two", "un", "under", "until",
   "up", "upon", "us", "very", "via", "was", "we", "well", "were", "what",
   "whatever", "when", "whence", "whenever", "where", "whereafter",
   "whereas", "whereby", "wherein", "whereupon", "wherever", "whether",
   "which", "while", "whither", "who", "whoever", "whole", "whom", "whose",
   "why", "will", "with", "within", "without", "would", "yet", "you",
   "your", "yours", "yourself", "yourselves"]

/-- The analyzer: lower-case the text, extract tokens of at least two word
characters, drop English stop-words. -/
def tokens (text : String) : List String :=
  ((wordRuns (lowerStr text).data []).map (fun cs => String.mk cs)).filter
    (fun t => decide (2 ≤ t.length) && !englishStopWords.contains t)

/-- Document frequency of a term across the two documents. -/
def docFreq (d1 d2 : List String) (t : String) : ℕ :=
  (if t ∈ d1 then 1 else 0) + (if t ∈ d2 then 1 else 0)

/-- Smoothed inverse document frequency over the two-document corpus:
`ln((1+2)/(1+df)) + 1`. -/
noncomputable def idf (d1 d2 : List String) (t : String) : ℝ :=
  Real.log (3 / (1 + docFreq d1 d2 t)) + 1

/-- tf-idf weight of a term in one of the two documents. -/
noncomputable def tfidfWeight (d1 d2 doc : List String) (t : String) : ℝ :=
  (doc.count t : ℝ) * idf d1 d2 t

/-- The vocabulary: every term occurring in either document. -/
def vocab (d1 d2 : List String) : Finset String := (d1 ++ d2).toFinset

/-- Cosine similarity of the tf-idf vectors of the two documents (the l2
normalization inside the vectorizer and inside `cosine_similarity` cancel
into a single division; a zero vector yields 0 via division by zero). -/
noncomputable def cosineTfidf (d1 d2 : List String) : ℝ :=
  (∑ t ∈ vocab d1 d2, tfidfWeight d1 d2 d1 t * tfidfWeight d1 d2 d2 t) /
    (Real.sqrt (∑ t ∈ vocab d1 d2, (tfidfWeight d1 d2 d1 t) ^ 2) *
     Real.sqrt (∑ t ∈ vocab d1 d2, (tfidfWeight d1 d2 d2 t) ^ 2))

/-- `RagEvaluator.calculate_similarity` (eval.py lines 19-40): 0.0 when either
text is empty after stripping; the `except` fallback yields 0.0 when the
vectorizer raises (it raises exactly when the vocabulary is empty, i.e. both
texts reduce to no tokens); otherwise the cosine similarity of the two
tf-idf vectors. -/
noncomputable def calculate_similarity (text1 text2 : String) : ℝ :=
  if stripStr text1 = "" ∨ stripStr text2 = "" then 0
  else if tokens text1 = [] ∧ tokens text2 = [] then 0
  else cosineTfidf (tokens text1) (tokens text2)

lemma docFreq_le_two (d1 d2 : List String) (t : String) :
    docFreq d1 d2 t ≤ 2 := by
  unfold docFreq
  split <;> split <;> omega

lemma idf_nonneg (d1 d2 : List String) (t : String) : 0 ≤ idf d1 d2 t := by
  unfold idf
  have hdf : (docFreq d1 d2 t : ℝ) ≤ 2 := by
    exact_mod_cast docFreq_le_two d1 d2 t
  have hpos : (0 : ℝ) < 1 + docFreq d1 d2 t := by positivity
  have h1 : (1 : ℝ) ≤ 3 / (1 + docFreq d1 d2 t) := by
    rw [le_div_iff₀ hpos]
    linarith
  have := Real.log_nonneg h1
  linarith

lemma tfidfWeight_nonneg (d1 d2 doc : List String) (t : String) :
    0 ≤ tfidfWeight d1 d2 doc t :=
  mul_nonneg (Nat.cast_nonneg _) (idf_nonneg d1 d2 t)

lemma cosineTfidf_nonneg (d1 d2 : List String) : 0 ≤ cosineTfidf d1 d2 := by
  unfold cosineTfidf
  apply div_nonneg
  · exact Finset.sum_nonneg fun t _ =>
      mul_nonneg (tfidfWeight_nonneg d1 d2 d1 t) (tfidfWeight_nonneg d1 d2 d2 t)
  · exact mul_nonneg (Real.sqrt_nonneg _) (Real.sqrt_nonneg _)

lemma cosineTfidf_le_one (d1 d2 : List String) : cosineTfidf d1 d2 ≤ 1 := by
  unfold cosineTfidf
  have hDnn : (0 : ℝ) ≤
      Real.sqrt (∑ t ∈ vocab d1 d2, (tfidfWeight d1 d2 d1 t) ^ 2) *
      Real.sqrt (∑ t ∈ vocab d1 d2, (tfidfWeight d1 d2 d2 t) ^ 2) :=
    mul_nonneg (Real.sqrt_nonneg _) (Real.sqrt_nonneg _)
  rcases eq_or_lt_of_le hDnn with h | h
  · rw [← h, div_zero]
    norm_num
  · rw [div_le_one h]
    exact Real.sum_mul_le_sqrt_mul_sqrt _ _ _

/-- C5: `calculate_similarity` always returns a value in [0,1]; it returns
exactly 0 when either input is empty after stripping; and it returns 0 in the
degenerate case where both texts reduce to no tokens (the caught vectorizer
error) instead of propagating an error. -/
theorem calculate_similarity_contract (text1 text2 : String) :
    (0 ≤ calculate_similarity text1 text2 ∧
      calculate_similarity text1 text2 ≤ 1) ∧
    (stripStr text1 = "" ∨ stripStr text2 = "" →
      calculate_similarity text1 text2 = 0) ∧
    (tokens text1 = [] ∧ tokens text2 = [] →
      calculate_similarity text1 text2 = 0) := by
  refine ⟨?_, ?_, ?_⟩
  · unfold calculate_similarity
    split
    · norm_num
    · split
      · norm_num
      · exact ⟨cosineTfidf_nonneg _ _, cosineTfidf_le_one _ _⟩
  · intro h
    simp [calculate_similarity, h]
  · intro h
    unfold calculate_similarity
    split
    · rfl
    · simp [h]

/-- Witness for C5: bounds at ordinary inputs, the empty input, and two
texts made only of stop-words. -/
theorem calculate_similarity_contract_witness :
    (0 ≤ calculate_similarity "hello world" "hello there" ∧
      calculate_similarity "hello world" "hello there" ≤ 1) ∧
    calculate_similarity "" "hello world" = 0 ∧
    calculate_similarity "the of and" "a an the" = 0 :=
  ⟨(calculate_similarity_contract "hello world" "hello there").1,
   (calculate_similarity_contract "" "hello world").2.1 (Or.inl rfl),
   (calculate_similarity_contract "the of and" "a an the").2.2 ⟨rfl, rfl⟩⟩

lemma docFreq_comm (d1 d2 : List String) (t : String) :
    docFreq d1 d2 t = docFreq d2 d1 t := by
  unfold docFreq
  omega

lemma idf_comm (d1 d2 : List String) (t : String) :
    idf d1 d2 t = idf d2 d1 t := by
  unfold idf
  rw [docFreq_comm]

lemma tfidfWeight_comm (d1 d2 doc : List String) (t : String) :
    tfidfWeight d1 d2 doc t = tfidfWeight d2 d1 doc t := by
  unfold tfidfWeight
  rw [idf_comm]

lemma vocab_comm (d1 d2 : List String) : vocab d1 d2 = vocab d2 d1 := by
  simp [vocab, List.toFinset_append, Finset.union_comm]

lemma cosineTfidf_comm (d1 d2 : List String) :
    cosineTfidf d1 d2 = cosineTfidf d2 d1 := by
  unfold cosineTfidf
  rw [vocab_comm d1 d2, mul_comm (Real.sqrt _) (Real.sqrt _)]
  congr 1
  · exact Finset.sum_congr rfl fun t _ => by
      rw [tfidfWeight_comm d1 d2 d1 t, tfidfWeight_comm d1 d2 d2 t, mul_comm]
  · congr 1 <;> exact congrArg Real.sqrt (Finset.sum_congr rfl fun t _ => by
      rw [tfidfWeight_comm d1 d2])

/-- C9: `calculate_similarity` is symmetric in its two arguments: the
tf-idf space is built over exactly the two inputs and cosine similarity is
symmetric, and both guard conditions are symmetric as well. -/
theorem calculate_similarity_symm (x y : String) :
    calculate_similarity x y = calculate_similarity y x := by
  unfold calculate_similarity
  by_cases h1 : stripStr x = ""
  · by_cases h2 : stripStr y = "" <;> simp [h1, h2]
  · by_cases h2 : stripStr y = ""
    · simp [h1, h2]
    · rw [if_neg (show ¬(stripStr x = "" ∨ stripStr y = "") by tauto),
          if_neg (show ¬(stripStr y = "" ∨ stripStr x = "") by tauto)]
      by_cases h3 : tokens x = [] <;> by_cases h4 : tokens y = []
      · rw [if_pos ⟨h3, h4⟩, if_pos ⟨h4, h3⟩]
      all_goals
        rw [if_neg (show ¬(tokens x = [] ∧ tokens y = []) by tauto),
          if_neg (show ¬(tokens y = [] ∧ tokens x = []) by tauto),
          cosineTfidf_comm]

/-! ### ExperimentRunner: `BatchExperimentRunner` (batch_experiment.py)

The two model clients are external collaborators; each backend call is
modelled as a function from the prompt string to either completion data or a
raised exception (`Except.error` carrying `str(e)`).  File persistence
(`json.dump` of the result document) and the rate-limit sleeps are I/O:
`run_experiment` is modelled as returning the document it persists. -/

/-- The token-usage dict `{input_tokens, output_tokens, total_tokens}`. -/
structure Usage where
  input_tokens : ℕ
  output_tokens : ℕ
  total_tokens : ℕ
deriving Repr, DecidableEq

def Usage.zero : Usage := ⟨0, 0, 0⟩

/-- Key-wise accumulation `total[key] += other.get(key, 0)`. -/
def Usage.add (a b : Usage) : Usage :=
  ⟨a.input_tokens + b.input_tokens, a.output_tokens + b.output_tokens,
   a.total_tokens + b.total_tokens⟩

/-- The cost dict `{input_cost, output_cost, total_cost}`. -/
structure Cost where
  input_cost : ℚ
  output_cost : ℚ
  total_cost : ℚ
deriving Repr, DecidableEq

def Cost.zero : Cost := ⟨0, 0, 0⟩

def Cost.add (a b : Cost) : Cost :=
  ⟨a.input_cost + b.input_cost, a.output_cost + b.output_cost,
   a.total_cost + b.total_cost⟩

/-- One successful `get_completion_with_usage` response of the hosted
(Claude) client: the extracted response text with usage and cost. -/
structure CompletionData where
  content : String
  usage : Usage
  cost : Cost
deriving Repr, DecidableEq

/-- The hosted-backend client: one call per prompt, fallible. -/
abbrev ClaudeClient := String → Except String CompletionData

/-- The local-backend client's `completions`: returns the extracted
`choices[0]["text"]` or raises; it reports no usage or cost. -/
abbrev LemonadeClient := String → Except String String

/-- The `response` value of a processing result: a string for Q&A, a map of
named components for summarization. -/
inductive ResponseValue
  | text (s : String)
  | summaries (l : List (String × String))
deriving Repr, DecidableEq

/-- The string carried by a Q&A `response` value (Q&A processing always
produces a string). -/
def ResponseValue.textOf : ResponseValue → String
  | .text s => s
  | .summaries _ => ""

/-- The `{response, usage, cost, error}` dict returned by the per-item
processing helpers. -/
structure ProcResult where
  response : ResponseValue
  usage : Usage
  cost : Cost
  error : Option String
deriving Repr, DecidableEq

/-- `BatchExperimentRunner.process_question_claude` (lines 91-125). -/
def process_question_claude (client : ClaudeClient)
    (question system_prompt : String) : ProcResult :=
  let prompt := system_prompt ++ "\n\nQuestion: " ++ question ++ "\n\nAnswer:"
  match client prompt with
  | .ok r =>
    { response := .text (stripStr r.content)
      usage := r.usage
      cost := r.cost
      error := none }
  | .error e =>
    { response := .text ("ERROR: " ++ e)
      usage := Usage.zero
      cost := Cost.zero
      error := some e }

/-- `BatchExperimentRunner.process_question_lemonade` (lines 127-171); the
local backend reports zero usage and cost even on success. -/
def process_question_lemonade (client : LemonadeClient)
    (question system_prompt : String) : ProcResult :=
  let formatted_prompt :=
    system_prompt ++ "\n\nQuestion: " ++ question ++ "\n\nAnswer:"
  match client formatted_prompt with
  | .ok t =>
    { response := .text (stripStr t)
      usage := Usage.zero
      cost := Cost.zero
      error := none }
  | .error e =>
    { response := .text ("ERROR: " ++ e)
      usage := Usage.zero
      cost := Cost.zero
      error := some e }

/-- `BatchExperimentRunner._get_summary_prompts` (lines 173-182), in dict
insertion order. -/
def get_summary_prompts (base_system_prompt : String) : List (String × String) :=
  [("executive_summary", base_system_prompt ++
      "\n\nProvide a brief executive summary (2-3 sentences) of the key outcomes and decisions from this transcript:"),
   ("detailed_summary", base_system_prompt ++
      "\n\nProvide a detailed summary of the transcript, covering all major topics, discussions, and outcomes in paragraph form:"),
   ("action_items", base_system_prompt ++
      "\n\nList the specific action items that were assigned during this meeting. Include who is responsible for each item when mentioned. Provide as a simple list:"),
   ("key_decisions", base_system_prompt ++
      "\n\nList the key decisions that were made during this meeting. Focus on concrete decisions and outcomes. Provide as a simple list:"),
   ("participants", base_system_prompt ++
      "\n\nList the participants mentioned in this transcript. Include their roles or titles when available. Provide as a simple list:"),
   ("topics_discussed", base_system_prompt ++
      "\n\nList the main topics and subjects that were discussed in this meeting. Provide as a simple list:")]

/-- Accumulator of the per-component summarization loop. -/
structure SummAcc where
  results : List (String × String)
  usage : Usage
  cost : Cost
  errors : List String
deriving Repr, DecidableEq

/-- One iteration of the component loop of `process_summarization_claude`:
a success accumulates usage and cost; a failure stores an `ERROR:`
placeholder and appends `"{component}: {e}"` to the error list. -/
def summStepClaude (client : ClaudeClient) (transcript : String)
    (acc : SummAcc) (cp : String × String) : SummAcc :=
  let full_prompt := cp.2 ++ "\n\nTranscript:\n" ++ transcript ++ "\n\nResponse:"
  match client full_prompt with
  | .ok r =>
    { acc with
      results := acc.results ++ [(cp.1, stripStr r.content)]
      usage := acc.usage.add r.usage
      cost := acc.cost.add r.cost }
  | .error e =>
    { acc with
      results := acc.results ++ [(cp.1, "ERROR: " ++ e)]
      errors := acc.errors ++ [cp.1 ++ ": " ++ e] }

/-- `BatchExperimentRunner.process_summarization_claude` (lines 184-253):
six independent calls, one per component; the item-level error is the
component errors joined with `"; "`, or absent when every component
succeeded. -/
def process_summarization_claude (client : ClaudeClient)
    (transcript system_prompt : String) : ProcResult :=
  let acc := (get_summary_prompts system_prompt).foldl
    (summStepClaude client transcript) ⟨[], Usage.zero, Cost.zero, []⟩
  { response := .summaries acc.results
    usage := acc.usage
    cost := acc.cost
    error := if acc.errors.isEmpty then none
      else some (String.intercalate "; " acc.errors) }

/-- One iteration of the component loop of `process_summarization_lemonade`:
identical control flow, but no usage or cost is ever accumulated. -/
def summStepLemonade (client : LemonadeClient) (transcript : String)
    (acc : SummAcc) (cp : String × String) : SummAcc :=
  let full_prompt := cp.2 ++ "\n\nTranscript:\n" ++ transcript ++ "\n\nResponse:"
  match client full_prompt with
  | .ok t => { acc with results := acc.results ++ [(cp.1, stripStr t)] }
  | .error e =>
    { acc with
      results := acc.results ++ [(cp.1, "ERROR: " ++ e)]
      errors := acc.errors ++ [cp.1 ++ ": " ++ e] }

/-- `BatchExperimentRunner.process_summarization_lemonade` (lines 255-317). -/
def process_summarization_lemonade (client : LemonadeClient)
    (transcript system_prompt : String) : ProcResult :=
  let acc := (get_summary_prompts system_prompt).foldl
    (summStepLemonade client transcript) ⟨[], Usage.zero, Cost.zero, []⟩
  { response := .summaries acc.results
    usage := acc.usage
    cost := acc.cost
    error := if acc.errors.isEmpty then none
      else some (String.intercalate "; " acc.errors) }

/-- `llm_type` after `create_llm_client` validation: any other value raises
before the item loop starts. -/
inductive LlmType
  | claude
  | lemonade
deriving Repr, DecidableEq

/-- `ExperimentConfig` (batch_experiment.py lines 12-31); `experiment_type`
is validated to be "qa" or "summarization" at construction.  The free-form
`parameters` dict only configures the client connection and is not
modelled. -/
structure ExperimentConfig where
  name : String
  llm_type : LlmType
  model : String
  system_prompt : String
  experiment_type : String
  max_tokens : ℕ
  temperature : ℚ
deriving Repr, DecidableEq

/-- One work item of `run_experiment`'s `data_items` list, tagged by its
`"type"` field.  `other` models an item whose type string is none of the
three supported kinds. -/
inductive DataItem
  | qa (query ground_truth : String)
  | qaRaw (transcript source_file : String) (queries : List String)
  | summarization (transcript source_file : String)
      (groundtruth_summaries : Option (List (String × String)))
  | other (dtype : String)
deriving Repr, DecidableEq

/-- `transcript[:500] + "..." if len(transcript) > 500 else transcript`. -/
def transcriptExcerpt (t : String) : String :=
  if t.length > 500 then String.mk (t.data.take 500) ++ "..." else t

/-- One entry of the per-experiment `results` list; the shape depends on the
work item kind. -/
inductive ResultEntry
  | qa (query ground_truth response : String)
  | qaRaw (transcript source_file : String)
      (qa_results : List (String × String))
  | summarization (transcript : String) (generated_summaries : ResponseValue)
      (source_file : String)
      (groundtruth_summaries : Option (List (String × String)))
deriving Repr, DecidableEq

/-- `"qa_results" in results[0]`: only raw-transcript entries carry that
key. -/
def ResultEntry.hasQaResults : ResultEntry → Bool
  | .qaRaw _ _ _ => true
  | _ => false

/-- Accumulator of the per-query loop of the `qa_raw` branch
(`total_result` plus the `qa_results` list, lines 567-683). -/
structure QueryAcc where
  qa_results : List (String × String)
  usage : Usage
  cost : Cost
  error : Option String
deriving Repr, DecidableEq

/-- One iteration of the `qa_raw` per-query loop: one backend call whose
usage/cost are folded into the item-level accumulator; an error is joined to
the accumulated item error with `"; "` and does not stop later queries. -/
def qaRawStep (llm : LlmType) (claude : ClaudeClient)
    (lemonade : LemonadeClient) (system_prompt transcript : String)
    (acc : QueryAcc) (query : String) : QueryAcc :=
  let context_prompt := system_prompt ++ "\n\nTranscript:\n" ++ transcript ++
    "\n\nQuestion: " ++ query ++ "\n\nAnswer:"
  let qr : String × Usage × Cost × Option String :=
    match llm with
    | .claude =>
      match claude context_prompt with
      | .ok r => (stripStr r.content, r.usage, r.cost, none)
      | .error e => ("ERROR: " ++ e, Usage.zero, Cost.zero, some e)
    | .lemonade =>
      match lemonade context_prompt with
      | .ok t => (stripStr t, Usage.zero, Cost.zero, none)
      | .error e => ("ERROR: " ++ e, Usage.zero, Cost.zero, some e)
  { qa_results := acc.qa_results ++ [(query, qr.1)]
    usage := acc.usage.add qr.2.1
    cost := acc.cost.add qr.2.2.1
    error := match acc.error, qr.2.2.2 with
      | some old, some e => some (old ++ "; " ++ e)
      | some old, none => some old
      | none, some e => some e
      | none, none => none }

/-- One turn of `run_experiment`'s item loop (lines 538-746): `none` models
the `continue` taken on an unsupported `data_type` (the error is only
logged); otherwise the item-level processing result and the result entry. -/
def handleItem (cfg : ExperimentConfig) (claude : ClaudeClient)
    (lemonade : LemonadeClient) : DataItem → Option (ProcResult × ResultEntry)
  | .qa query ground_truth =>
    let result := match cfg.llm_type with
      | .claude => process_question_claude claude query cfg.system_prompt
      | .lemonade => process_question_lemonade lemonade query cfg.system_prompt
    some (result, .qa query ground_truth result.response.textOf)
  | .qaRaw transcript source_file queries =>
    let acc := queries.foldl
      (qaRawStep cfg.llm_type claude lemonade cfg.system_prompt transcript)
      ⟨[], Usage.zero, Cost.zero, none⟩
    some ({ response := .text ""
            usage := acc.usage
            cost := acc.cost
            error := acc.error },
      .qaRaw (transcriptExcerpt transcript) source_file acc.qa_results)
  | .summarization transcript source_file gts =>
    let result := match cfg.llm_type with
      | .claude => process_summarization_claude claude transcript cfg.system_prompt
      | .lemonade =>
        process_summarization_lemonade lemonade transcript cfg.system_prompt
    some (result,
      .summarization (transcriptExcerpt transcript) result.response
        source_file gts)
  | .other _ => none

/-- The running state of the item loop: the `results` list, the experiment
totals, and the experiment-level `errors` list. -/
structure RunState where
  results : List ResultEntry
  total_usage : Usage
  total_cost : Cost
  errors : List String
deriving Repr, DecidableEq

/-- The item loop of `run_experiment`, carrying the 0-based item index `i`:
a processed item folds its usage/cost into the totals and, when its result
has an error, appends the single entry `"Item {i+1}: {error}"`; an
unsupported item changes nothing. -/
def runItems (cfg : ExperimentConfig) (claude : ClaudeClient)
    (lemonade : LemonadeClient) :
    List DataItem → ℕ → RunState → RunState
  | [], _, st => st
  | item :: rest, i, st =>
    match handleItem cfg claude lemonade item with
    | none => runItems cfg claude lemonade rest (i + 1) st
    | some (result, entry) =>
      runItems cfg claude lemonade rest (i + 1)
        { results := st.results ++ [entry]
          total_usage := st.total_usage.add result.usage
          total_cost := st.total_cost.add result.cost
          errors := st.errors ++ (match result.error with
            | some e => ["Item " ++ toString (i + 1) ++ ": " ++ e]
            | none => []) }

/-- The `metadata` section of the persisted result document
(lines 753-769). -/
structure Metadata where
  experiment_name : String
  experiment_type : String
  llm_type : LlmType
  model : String
  system_prompt : String
  max_tokens : ℕ
  temperature : ℚ
  timestamp : String
  similarity_threshold : ℚ
  total_items : ℕ
  total_usage : Usage
  total_cost : Cost
  errors : List String
deriving Repr, DecidableEq

/-- The `analysis` bucket: exactly one key is set, chosen from the
experiment type and the shape of the first result entry. -/
structure Analysis where
  qa_results : Option (List ResultEntry) := none
  transcript_qa_results : Option (List ResultEntry) := none
  summarization_results : Option (List ResultEntry) := none
deriving Repr, DecidableEq

/-- The persisted experiment result document. -/
structure ExperimentResultDocument where
  metadata : Metadata
  analysis : Analysis
deriving Repr, DecidableEq

/-- `BatchExperimentRunner.run_experiment` (lines 517-799), modelled as the
document it writes to `{safe_name}.experiment.json`; `timestamp` stands for
`datetime.now()`. -/
def run_experiment (cfg : ExperimentConfig) (claude : ClaudeClient)
    (lemonade : LemonadeClient) (data_items : List DataItem)
    (timestamp : String) : ExperimentResultDocument :=
  let st := runItems cfg claude lemonade data_items 0
    ⟨[], Usage.zero, Cost.zero, []⟩
  { metadata :=
    { experiment_name := cfg.name
      experiment_type := cfg.experiment_type
      llm_type := cfg.llm_type
      model := cfg.model
      system_prompt := cfg.system_prompt
      max_tokens := cfg.max_tokens
      temperature := cfg.temperature
      timestamp := timestamp
      similarity_threshold := 7/10
      total_items := data_items.length
      total_usage := st.total_usage
      total_cost := st.total_cost
      errors := st.errors }
    analysis :=
      if cfg.experiment_type = "qa" then
        match st.results with
        | entry :: _ =>
          if entry.hasQaResults then { transcript_qa_results := some st.results }
          else { qa_results := some st.results }
        | [] => { qa_results := some st.results }
      else if cfg.experiment_type = "summarization" then
        { summarization_results := some st.results }
      else {} }

/-- The number of backend completion calls `run_experiment` makes for one
data item: one per `qa` item, one per query of a `qa_raw` item, six (one per
summary component) per `summarization` item, none for a skipped item. -/
def DataItem.backendCalls : DataItem → ℕ
  | .qa _ _ => 1
  | .qaRaw _ _ queries => queries.length
  | .summarization _ _ _ => 6
  | .other _ => 0

/-- Total number of backend calls a run over these items performs. -/
def numBackendCalls (items : List DataItem) : ℕ :=
  (items.map DataItem.backendCalls).sum

/-- Whether a run in which every backend call fails records an error entry
for the item: exactly the items that make at least one call. -/
def DataItem.failsWhenAllCallsFail : DataItem → Bool
  | .qa _ _ => true
  | .qaRaw _ _ queries => !queries.isEmpty
  | .summarization _ _ _ => true
  | .other _ => false

@[simp] lemma usage_add_zero (a : Usage) : a.add Usage.zero = a := by
  obtain ⟨x, y, z⟩ := a
  simp [Usage.add, Usage.zero]

@[simp] lemma cost_add_zero (a : Cost) : a.add Cost.zero = a := by
  obtain ⟨x, y, z⟩ := a
  simp [Cost.add, Cost.zero]

lemma qaRawFold_all_fail (llm : LlmType) (msgC msgL : String → String)
    (sp tr : String) (queries : List String) (acc : QueryAcc) :
    (queries.foldl (qaRawStep llm (fun p => Except.error (msgC p))
        (fun p => Except.error (msgL p)) sp tr) acc).usage = acc.usage ∧
    (queries.foldl (qaRawStep llm (fun p => Except.error (msgC p))
        (fun p => Except.error (msgL p)) sp tr) acc).cost = acc.cost ∧
    (queries.foldl (qaRawStep llm (fun p => Except.error (msgC p))
        (fun p => Except.error (msgL p)) sp tr) acc).error.isSome
      = (acc.error.isSome || !queries.isEmpty) := by
  induction queries generalizing acc with
  | nil => simp
  | cons q qs ih =>
    simp only [List.foldl_cons]
    have hstep₁ : (qaRawStep llm (fun p => Except.error (msgC p))
        (fun p => Except.error (msgL p)) sp tr acc q).usage = acc.usage := by
      cases llm <;> simp [qaRawStep]
    have hstep₂ : (qaRawStep llm (fun p => Except.error (msgC p))
        (fun p => Except.error (msgL p)) sp tr acc q).cost = acc.cost := by
      cases llm <;> simp [qaRawStep]
    have hstep₃ : (qaRawStep llm (fun p => Except.error (msgC p))
        (fun p => Except.error (msgL p)) sp tr acc q).error.isSome = true := by
      cases llm <;> cases hacc : acc.error <;> simp [qaRawStep, hacc]
    obtain ⟨ih1, ih2, ih3⟩ := ih (qaRawStep llm (fun p => Except.error (msgC p))
      (fun p => Except.error (msgL p)) sp tr acc q)
    refine ⟨?_, ?_, ?_⟩
    · rw [ih1, hstep₁]
    · rw [ih2, hstep₂]
    · rw [ih3, hstep₃]
      simp

lemma process_summarization_claude_all_fail (msg : String → String)
    (tr sp : String) :
    (process_summarization_claude (fun p => Except.error (msg p)) tr sp).usage
      = Usage.zero ∧
    (process_summarization_claude (fun p => Except.error (msg p)) tr sp).cost
      = Cost.zero ∧
    (process_summarization_claude (fun p => Except.error (msg p))
      tr sp).error.isSome = true :=
  ⟨rfl, rfl, rfl⟩

lemma process_summarization_lemonade_all_fail (msg : String → String)
    (tr sp : String) :
    (process_summarization_lemonade (fun p => Except.error (msg p)) tr sp).usage
      = Usage.zero ∧
    (process_summarization_lemonade (fun p => Except.error (msg p)) tr sp).cost
      = Cost.zero ∧
    (process_summarization_lemonade (fun p => Except.error (msg p))
      tr sp).error.isSome = true :=
  ⟨rfl, rfl, rfl⟩

lemma runItems_all_fail (cfg : ExperimentConfig) (msgC msgL : String → String)
    (items : List DataItem) : ∀ (i : ℕ) (st : RunState),
    (runItems cfg (fun p => Except.error (msgC p))
        (fun p => Except.error (msgL p)) items i st).errors.length
      = st.errors.length + items.countP DataItem.failsWhenAllCallsFail ∧
    (runItems cfg (fun p => Except.error (msgC p))
        (fun p => Except.error (msgL p)) items i st).total_usage
      = st.total_usage ∧
    (runItems cfg (fun p => Except.error (msgC p))
        (fun p => Except.error (msgL p)) items i st).total_cost
      = st.total_cost := by
  induction items with
  | nil => intro i st; simp [runItems]
  | cons item rest ih =>
    intro i st
    have ihE : ∀ (j : ℕ) (st' : RunState),
        (runItems cfg (fun p => Except.error (msgC p))
          (fun p => Except.error (msgL p)) rest j st').errors.length
          = st'.errors.length + rest.countP DataItem.failsWhenAllCallsFail :=
      fun j st' => (ih j st').1
    have ihU : ∀ (j : ℕ) (st' : RunState),
        (runItems cfg (fun p => Except.error (msgC p))
          (fun p => Except.error (msgL p)) rest j st').total_usage
          = st'.total_usage :=
      fun j st' => (ih j st').2.1
    have ihC : ∀ (j : ℕ) (st' : RunState),
        (runItems cfg (fun p => Except.error (msgC p))
          (fun p => Except.error (msgL p)) rest j st').total_cost
          = st'.total_cost :=
      fun j st' => (ih j st').2.2
    cases item with
    | qa q g =>
      cases hllm : cfg.llm_type <;>
      · simp only [runItems, handleItem, hllm, process_question_claude,
          process_question_lemonade]
        rw [ihE, ihU, ihC]
        simp [List.countP_cons, DataItem.failsWhenAllCallsFail]
        omega
    | qaRaw tr src queries =>
      obtain ⟨f1, f2, f3⟩ := qaRawFold_all_fail cfg.llm_type msgC msgL
        cfg.system_prompt tr queries ⟨[], Usage.zero, Cost.zero, none⟩
      cases hqe : queries.isEmpty
      · have hsome : ((queries.foldl (qaRawStep cfg.llm_type
            (fun p => Except.error (msgC p)) (fun p => Except.error (msgL p))
            cfg.system_prompt tr) ⟨[], Usage.zero, Cost.zero, none⟩).error).isSome
            = true := by
          rw [f3, hqe]
          rfl
        obtain ⟨e, he⟩ := Option.isSome_iff_exists.mp hsome
        simp only [runItems, handleItem]
        rw [ihE, ihU, ihC]
        simp [he, f1, f2, List.countP_cons,
          DataItem.failsWhenAllCallsFail, hqe]
        omega
      · have hnone : (queries.foldl (qaRawStep cfg.llm_type
            (fun p => Except.error (msgC p)) (fun p => Except.error (msgL p))
            cfg.system_prompt tr) ⟨[], Usage.zero, Cost.zero, none⟩).error
            = none := by
          have h3 := f3
          rw [hqe] at h3
          simpa using h3
        simp only [runItems, handleItem]
        rw [ihE, ihU, ihC]
        simp [hnone, f1, f2, List.countP_cons,
          DataItem.failsWhenAllCallsFail, hqe]
    | summarization tr src gts =>
      cases hllm : cfg.llm_type
      · obtain ⟨s1, s2, s3⟩ := process_summarization_claude_all_fail
          msgC tr cfg.system_prompt
        obtain ⟨e, he⟩ := Option.isSome_iff_exists.mp s3
        simp only [runItems, handleItem, hllm]
        rw [ihE, ihU, ihC]
        simp [he, s1, s2, List.countP_cons, DataItem.failsWhenAllCallsFail]
        omega
      · obtain ⟨s1, s2, s3⟩ := process_summarization_lemonade_all_fail
          msgL tr cfg.system_prompt
        obtain ⟨e, he⟩ := Option.isSome_iff_exists.mp s3
        simp only [runItems, handleItem, hllm]
        rw [ihE, ihU, ihC]
        simp [he, s1, s2, List.countP_cons, DataItem.failsWhenAllCallsFail]
        omega
    | other d =>
      simp only [runItems, handleItem]
      rw [ihE, ihU, ihC]
      simp [List.countP_cons, DataItem.failsWhenAllCallsFail]

/-- C1 counterexample: a summarization experiment over one item in which all
six component calls fail makes six failed backend calls but the persisted
document's `metadata.errors` has length one (the per-item aggregated entry),
refuting the claimed equality with the number of failed calls. -/
theorem summ_errors_one_entry_for_six_failed_calls :
    numBackendCalls [DataItem.summarization "t" "src" none] = 6 ∧
    (run_experiment ⟨"exp", .claude, "m", "sys", "summarization", 512, 7/10⟩
      (fun _ => Except.error "boom") (fun _ => Except.error "boom")
      [DataItem.summarization "t" "src" none] "ts").metadata.errors.length
      = 1 ∧
    (1 : ℕ) ≠ 6 := by
  refine ⟨rfl, ?_, by decide⟩
  rfl

/-- C1 (amended): when every backend call fails, `run_experiment` still
builds and persists a result document whose `metadata.total_usage` and
`metadata.total_cost` are all zeros, and whose `metadata.errors` has one
aggregated entry per item that made at least one call — so its length is
the number of failed items, not the number of failed calls. -/
theorem run_experiment_all_fail_totals (cfg : ExperimentConfig)
    (items : List DataItem) (ts : String) (msgC msgL : String → String) :
    (run_experiment cfg (fun p => Except.error (msgC p))
      (fun p => Except.error (msgL p)) items ts).metadata.errors.length
      = items.countP DataItem.failsWhenAllCallsFail ∧
    (run_experiment cfg (fun p => Except.error (msgC p))
      (fun p => Except.error (msgL p)) items ts).metadata.total_usage
      = Usage.zero ∧
    (run_experiment cfg (fun p => Except.error (msgC p))
      (fun p => Except.error (msgL p)) items ts).metadata.total_cost
      = Cost.zero := by
  have h := runItems_all_fail cfg msgC msgL items 0 ⟨[], Usage.zero, Cost.zero, []⟩
  simpa [run_experiment] using h

/-- C6 (amended): an item of an unsupported data type is skipped by
`handleItem` (modelling the `continue`) and the loop proceeds with the
remaining items from an unchanged state — but no entry is appended to the
experiment error list (the error is only logged). -/
theorem unsupported_item_skipped (cfg : ExperimentConfig)
    (claude : ClaudeClient) (lemonade : LemonadeClient) (d : String)
    (rest : List DataItem) (i : ℕ) (st : RunState) :
    handleItem cfg claude lemonade (DataItem.other d) = none ∧
    runItems cfg claude lemonade (DataItem.other d :: rest) i st
      = runItems cfg claude lemonade rest (i + 1) st :=
  ⟨rfl, rfl⟩

/-- C6 counterexample: running an experiment whose only item has the
unsupported type "translation" yields a document whose error list is empty
(no error is recorded for the skipped item, contradicting the claim) and
whose result list is empty. -/
theorem unsupported_item_error_not_recorded :
    (run_experiment ⟨"exp", .claude, "m", "sys", "qa", 512, 7/10⟩
      (fun _ => Except.ok ⟨"fine", ⟨1, 2, 3⟩, Cost.zero⟩)
      (fun _ => Except.error "unused")
      [DataItem.other "translation"] "ts").metadata.errors = [] ∧
    (run_experiment ⟨"exp", .claude, "m", "sys", "qa", 512, 7/10⟩
      (fun _ => Except.ok ⟨"fine", ⟨1, 2, 3⟩, Cost.zero⟩)
      (fun _ => Except.error "unused")
      [DataItem.other "translation"] "ts").metadata.total_items = 1 ∧
    (run_experiment ⟨"exp", .claude, "m", "sys", "qa", 512, 7/10⟩
      (fun _ => Except.ok ⟨"fine", ⟨1, 2, 3⟩, Cost.zero⟩)
      (fun _ => Except.error "unused")
      [DataItem.other "translation"] "ts").analysis.qa_results = some [] :=
  ⟨rfl, rfl, rfl⟩

/-! ### ReportSynthesizer: `RagEvaluator.generate_summary_report`

Only the ranking logic the claim is about is modelled: the parsed
per-evaluation-document fields it reads, the pass-rate sort performed before
the evaluation type is detected (line 1486), and the ranking lines each
report branch renders. -/

/-- One `per_question` record, reduced to
`question.get("analysis", {}).get("overall_quality", "")`. -/
structure PerQuestion where
  overall_quality : String
deriving Repr, DecidableEq

/-- The fields of one parsed evaluation document that the ranking logic
reads (lines 1455-1475); `pass_rate` defaults to 0 when the metrics lack
it. -/
structure ModelData where
  name : String
  pass_rate : ℚ
  per_question : List PerQuestion
deriving Repr, DecidableEq

/-- `models_data.sort(key=lambda x: x["pass_rate"], reverse=True)`
(line 1486): a stable descending sort by pass rate, applied before the
evaluation type is detected. -/
def sortByPassRate (models : List ModelData) : List ModelData :=
  models.mergeSort (fun a b => decide (b.pass_rate ≤ a.pass_rate))

/-- The count of per-question records with the given `overall_quality`. -/
def countQuality (m : ModelData) (q : String) : ℕ :=
  m.per_question.countP (fun pq => decide (pq.overall_quality = q))

/-- `total_summaries`: the four quality counts added up (line 1198). -/
def totalSummaries (m : ModelData) : ℕ :=
  countQuality m "excellent" + countQuality m "good" +
    countQuality m "fair" + countQuality m "poor"

/-- The weighted quality score
`(4*excellent + 3*good + 2*fair + 1*poor) / total_summaries`
(lines 1200-1205). -/
def qualityScore (m : ModelData) : ℚ :=
  (4 * countQuality m "excellent" + 3 * countQuality m "good" +
    2 * countQuality m "fair" + 1 * countQuality m "poor") / totalSummaries m

/-- The ranking line of `_generate_summarization_report` (lines 1177-1208):
the models in the order they were passed in, each annotated with its quality
score; models with zero counted summaries are skipped. -/
def summarizationRanking (models : List ModelData) : List (String × ℚ) :=
  (models.filter (fun m => decide (0 < totalSummaries m))).map
    (fun m => (m.name, qualityScore m))

/-- The ranking line of `_generate_markdown_report` (lines 1519-1523):
models in the order they were passed in with their pass rates. -/
def qaRanking (models : List ModelData) : List (String × ℚ) :=
  models.map (fun m => (m.name, m.pass_rate))

/-- The ranking `generate_summary_report` renders for summarization
evaluations: the models are sorted by pass rate, then annotated with
quality scores. -/
def generateSummaryRanking (models : List ModelData) : List (String × ℚ) :=
  summarizationRanking (sortByPassRate models)

/-- The ranking `generate_summary_report` renders for Q&A evaluations. -/
def generateQaRanking (models : List ModelData) : List (String × ℚ) :=
  qaRanking (sortByPassRate models)

/-- C7 counterexample: two summarization evaluations where the model with
the higher pass-rate field has the strictly lower quality score.  The
rendered ranking is in pass-rate order, not in descending quality-score
order, refuting the summarization half of the claim. -/
theorem summarization_ranking_not_by_quality :
    generateSummaryRanking
      [⟨"A", 1, [⟨"poor"⟩]⟩, ⟨"B", 0, [⟨"excellent"⟩]⟩]
      = [("A", 1), ("B", 4)] ∧
    ¬ List.Pairwise (fun x y : String × ℚ => y.2 ≤ x.2)
      (generateSummaryRanking
        [⟨"A", 1, [⟨"poor"⟩]⟩, ⟨"B", 0, [⟨"excellent"⟩]⟩]) := by
  have hsort : sortByPassRate
      [⟨"A", 1, [⟨"poor"⟩]⟩, ⟨"B", 0, [⟨"excellent"⟩]⟩]
      = [⟨"A", 1, [⟨"poor"⟩]⟩, ⟨"B", 0, [⟨"excellent"⟩]⟩] := by
    apply List.mergeSort_of_sorted
    simp [List.pairwise_cons]
  have hqA : qualityScore ⟨"A", 1, [⟨"poor"⟩]⟩ = 1 := by
    simp [qualityScore, countQuality, totalSummaries]
  have hqB : qualityScore ⟨"B", 0, [⟨"excellent"⟩]⟩ = 4 := by
    simp [qualityScore, countQuality, totalSummaries]
  have hrank : generateSummaryRanking
      [⟨"A", 1, [⟨"poor"⟩]⟩, ⟨"B", 0, [⟨"excellent"⟩]⟩]
      = [("A", 1), ("B", 4)] := by
    rw [generateSummaryRanking, hsort]
    simp [summarizationRanking, totalSummaries, countQuality, hqA, hqB]
  refine ⟨hrank, ?_⟩
  rw [hrank]
  simp [List.pairwise_cons]

/-- C7 (amended): `generate_summary_report` sorts the experiments by pass
rate (descending, before detecting the evaluation type), so both report
kinds list models in descending pass-rate order; the summarization ranking
line keeps that order (a sub-sequence of it, dropping models with no counted
summaries) and merely annotates each model with its weighted quality score
rather than ordering by it. -/
theorem report_rankings_follow_pass_rate (models : List ModelData) :
    List.Pairwise (fun a b : ModelData => b.pass_rate ≤ a.pass_rate)
      (sortByPassRate models) ∧
    List.Pairwise (fun x y : String × ℚ => y.2 ≤ x.2)
      (generateQaRanking models) ∧
    ((generateSummaryRanking models).map Prod.fst).Sublist
      ((sortByPassRate models).map ModelData.name) := by
  have htrans : ∀ a b c : ModelData,
      decide (b.pass_rate ≤ a.pass_rate) →
      decide (c.pass_rate ≤ b.pass_rate) →
      decide (c.pass_rate ≤ a.pass_rate) := by
    intro a b c hab hbc
    simp only [decide_eq_true_eq] at *
    exact le_trans hbc hab
  have htotal : ∀ a b : ModelData,
      decide (b.pass_rate ≤ a.pass_rate) || decide (a.pass_rate ≤ b.pass_rate) := by
    intro a b
    simpa using le_total b.pass_rate a.pass_rate
  have hsorted := @List.sorted_mergeSort ModelData
    (fun a b : ModelData => decide (b.pass_rate ≤ a.pass_rate))
    htrans htotal models
  have hpw : List.Pairwise (fun a b : ModelData => b.pass_rate ≤ a.pass_rate)
      (sortByPassRate models) := by
    refine hsorted.imp ?_
    intro a b h
    simpa using h
  refine ⟨hpw, ?_, ?_⟩
  · rw [generateQaRanking, qaRanking, List.pairwise_map]
    exact hpw
  · rw [generateSummaryRanking, summarizationRanking, List.map_map]
    exact List.Sublist.map _ (List.filter_sublist _)

end Gaia
